import Mathlib

/-!
# Verification of the tankerkoenig_exporter scrape-and-publish cycle

A shallow embedding of `internal/exporter/exporter.go` (and the relevant
pieces of the vendored `tankerkoenig-go` data model).  Go maps are embedded
as association lists, the Prometheus gauges and counters as a record of
rational/natural values, the channel of emitted metrics as a list, and the
remote API client as an explicit function argument.  String normalisation
helpers that live in external libraries (`cases.Title`, `geohash.Encode`)
are parameters of the model: the properties below do not depend on their
values.  The concurrent batch tasks of `scrape` are embedded as a
deterministic left-to-right execution in dispatch order; `errgroup.Wait`
then reports the error of the first failing batch.
-/

namespace TankerkoenigExporter

/-- Embedding of the JSON values the remote API stores in the per-product
price fields (`interface{}` in `tankerkoenig.Price`): a JSON number decodes
to a Go `float64` (embedded as a rational), anything else (the API uses
string markers, or null) fails the `.(float64)` type assertion. -/
inductive PriceVal where
  | num (q : ℚ)
  | str (s : String)
  | null
deriving Repr, DecidableEq

/-- Embedding of `tankerkoenig.Price` (vendored `prices.go`): open-status
string plus the three per-product fields. -/
structure Price where
  status : String
  diesel : PriceVal
  e5 : PriceVal
  e10 : PriceVal
deriving Repr, DecidableEq

/-- Embedding of the fields of `tankerkoenig.Station` (vendored
`stations.go`) that the exporter reads.  Coordinates are embedded as
rationals. -/
structure Station where
  id : String
  name : String
  brand : String
  street : String
  houseNumber : String
  place : String
  lat : ℚ
  lng : ℚ
deriving Repr, DecidableEq

/-- The zero value of the Go `Station` struct: what `e.stations[id]`
yields for a key that is absent from the map. -/
instance : Inhabited Station := ⟨⟨"", "", "", "", "", "", 0, 0⟩⟩

/-- The station registry `e.stations : map[string]tankerkoenig.Station`,
embedded as an association list (the Go map's keys are unique). -/
abbrev Registry := List (String × Station)

/-- Go map read with zero-value default: `station := e.stations[id]`. -/
def registryGet (reg : Registry) (id : String) : Station :=
  (reg.lookup id).getD default

/-- The hard batch-size limit of the price endpoint:
`const batchSize = 10` in `scrape`. -/
def batchSize : ℕ := 10

/-- The batching loop of `scrape`:
`for i := 0; i < len(ids); i += batchSize { ... ids[i:min(i+batchSize, len(ids))] ... }`,
i.e. successive slices of at most ten identifiers. -/
def chunkBy10 : List String → List (List String)
  | [] => []
  | x :: xs => (x :: xs).take batchSize :: chunkBy10 ((x :: xs).drop batchSize)
termination_by ids => ids.length
decreasing_by
  simp [batchSize]
  omega

/-- The merged price map `prices : map[string]tankerkoenig.Price` is an
association list; Go map assignment overwrites an existing key. -/
abbrev PriceMap := List (String × Price)

/-- One key/value store into a Go map (`m[k] = v` semantics: replace the
binding if the key exists, append it otherwise). -/
def mapStore (m : PriceMap) (k : String) (v : Price) : PriceMap :=
  if m.any (fun p => p.1 = k) then
    m.map (fun p => if p.1 = k then (k, v) else p)
  else m ++ [(k, v)]

/-- `maps.Copy(prices, batchPrices)`: store every binding of the batch
response into the shared map. -/
def mapsCopy (dst : PriceMap) (src : PriceMap) : PriceMap :=
  src.foldl (fun m kv => mapStore m kv.1 kv.2) dst

/-- The remote batched price lookup `e.client.Prices.Get(batch...)`:
either a network/API error or a response map for the queried batch. -/
abbrev Fetch := List String → Except String PriceMap

/-- The fan-out/fan-in of `scrape`: one task per batch, each task calls
the price endpoint and merges its response into the shared map under
`pricesMu`; `errGroup.Wait` reports the first failing task's error, in
which case the merged map is discarded.  The concurrent tasks are embedded
as a deterministic left-to-right run in dispatch order. -/
def runBatches (fetch : Fetch) (bs : List (List String)) :
    Except String PriceMap :=
  bs.foldlM (fun acc b => (fetch b).map (fun r => mapsCopy acc r)) []

/-- The merged Scrape Result of one cycle: run the batch plan built from
the registry keys. -/
def scrapeResult (fetch : Fetch) (reg : Registry) : Except String PriceMap :=
  runBatches fetch (chunkBy10 (reg.map Prod.fst))

/-- One metric observation sent into the `chan<- prometheus.Metric`:
the three per-station families of the exporter. -/
inductive Metric where
  | details (value : ℚ) (id name address city geohashStr brand : String)
  | openStatus (value : ℚ) (id : String)
  | price (value : ℚ) (id product : String)
deriving Repr, DecidableEq

/-- The external string normalisers used during emission: the German
title caser `caser.String` and `geohash.Encode`.  Their concrete values
live in vendored libraries and are irrelevant to the verified properties,
so they are parameters of the model. -/
structure Normalizers where
  caserTitle : String → String
  geohashEncode : ℚ → ℚ → String

/-- The per-station body of the emission loop of `scrape` (lines 169-206):
details observation first, then the status check (`"no prices"` skips the
rest via `continue`), then the open-status observation, then one price
observation per product field that is a `float64`. -/
def emitStation (nz : Normalizers) (station : Station) (id : String)
    (price : Price) : List Metric :=
  let city := (nz.caserTitle station.place).trim
  let street := (nz.caserTitle station.street).trim
  let no := station.houseNumber.trim
  let address := street ++ " " ++ no
  let details := Metric.details 1 id station.name address city
    (nz.geohashEncode station.lat station.lng) station.brand
  if price.status = "no prices" then [details]
  else
    details ::
      Metric.openStatus (if price.status = "open" then 1 else 0) id ::
      ((match price.diesel with
        | .num q => [Metric.price q id "diesel"]
        | _ => []) ++
       (match price.e5 with
        | .num q => [Metric.price q id "e5"]
        | _ => []) ++
       (match price.e10 with
        | .num q => [Metric.price q id "e10"]
        | _ => []))

/-- The exporter's health gauges and counters (`up`, `scrapeDuration`,
`totalScrapes`, `failedScrapes`). -/
structure MetricsState where
  up : ℚ
  scrapeDuration : ℚ
  totalScrapes : ℕ
  failedScrapes : ℕ
deriving Repr, DecidableEq

/-- What one call of `scrape` produces: the updated metrics state, the
per-station observations sent to the channel, and the returned error. -/
structure ScrapeOutcome where
  state : MetricsState
  observations : List Metric
  err : Option String
deriving Repr, DecidableEq

/-- `(*Exporter).scrape` (exporter.go lines 120-212): increment
`totalScrapes`, build the batch plan from the registry keys, run the
batched lookups, and either fail the whole cycle (`up` 0, `failedScrapes`
incremented, no observations, error returned) or emit the per-station
observations in map order and set `up` to 1.  The deferred duration
measurement runs on both return paths; the elapsed wall-clock time is the
explicit argument `elapsed`. -/
def scrape (nz : Normalizers) (fetch : Fetch) (reg : Registry)
    (elapsed : ℚ) (st : MetricsState) : ScrapeOutcome :=
  let st := { st with totalScrapes := st.totalScrapes + 1 }
  match scrapeResult fetch reg with
  | .error e =>
      { state := { st with
          up := 0
          failedScrapes := st.failedScrapes + 1
          scrapeDuration := elapsed }
        observations := []
        err := some e }
  | .ok prices =>
      { state := { st with
          up := 1
          scrapeDuration := elapsed }
        observations :=
          (prices.map (fun kv =>
            emitStation nz (registryGet reg kv.1) kv.1 kv.2)).flatten
        err := none }

/-- One item streamed to the caller of `Collect`: either a per-station
metric from `scrape` or one of the four health metrics collected
afterwards. -/
inductive Observation where
  | metric (m : Metric)
  | upGauge (v : ℚ)
  | durationGauge (v : ℚ)
  | failedCounter (n : ℕ)
  | totalCounter (n : ℕ)
deriving Repr, DecidableEq

/-- What one call of `Collect` produces: the updated metrics state, the
full stream sent to the channel, and the log line written on scrape
failure.  The function is total — `Collect` has no error return. -/
structure CollectOutcome where
  state : MetricsState
  stream : List Observation
  logged : Option String
deriving Repr, DecidableEq

/-- `(*Exporter).Collect` (exporter.go lines 102-117): run `scrape`; on
error only write a log line; then always collect `up`, `scrapeDuration`,
`failedScrapes` and `totalScrapes` into the stream. -/
def collect (nz : Normalizers) (fetch : Fetch) (reg : Registry)
    (elapsed : ℚ) (st : MetricsState) : CollectOutcome :=
  let out := scrape nz fetch reg elapsed st
  { state := out.state
    stream := out.observations.map Observation.metric ++
      [Observation.upGauge out.state.up,
       Observation.durationGauge out.state.scrapeDuration,
       Observation.failedCounter out.state.failedScrapes,
       Observation.totalCounter out.state.totalScrapes]
    logged := out.err.map
      (fun e => "error: cannot scrape tankerkoenig api: " ++ e) }

/-- The failures of `NewForStations`, kept structured: `remoteLookup`
embeds the `fmt.Errorf("could not retrieve station details ...: %w", ...)`
wrap, `stationNotFound` the `fmt.Errorf("station %q was not found", id)`
case. -/
inductive InitError where
  | remoteLookup (id : String) (cause : String)
  | stationNotFound (id : String)
deriving Repr, DecidableEq

/-- The remote station detail lookup `apiClient.Station.Detail(id)`. -/
abbrev Detail := String → Except String Station

/-- The validation loop of `NewForStations` (exporter.go lines 47-65):
for each identifier in order, perform a detail lookup; abort with an
error on the first network failure or on the first empty station ID, and
only on full success return the populated registry. -/
def newForStations (detail : Detail) : List String →
    Except InitError Registry
  | [] => .ok []
  | id :: rest =>
      match detail id with
      | .error e => .error (.remoteLookup id e)
      | .ok station =>
          if station.id = "" then .error (.stationNotFound id)
          else (newForStations detail rest).map
            (fun reg => (id, station) :: reg)

/-- Observation classifier: is this metric of the open-status family
(`e.openDesc`)? -/
def Metric.isOpenObs : Metric → Bool
  | .openStatus _ _ => true
  | _ => false

/-- Observation classifier: is this metric of the price family
(`e.priceDesc`)? -/
def Metric.isPriceObs : Metric → Bool
  | .price _ _ _ => true
  | _ => false

/-- Observation classifier: is this metric of the station-details family
(`e.detailsDesc`)? -/
def Metric.isDetailsObs : Metric → Bool
  | .details _ _ _ _ _ _ _ => true
  | _ => false

/-! ## Concrete fixtures

Small concrete stations, prices, registries and clients used to evaluate
the verified properties on closed inputs. -/

/-- Trivial normalisers for concrete evaluation (the verified properties
hold for every choice). -/
def nzId : Normalizers := ⟨fun s => s, fun _ _ => "u33db2"⟩

/-- A concrete station fixture. -/
def stationA : Station :=
  ⟨"a1", "Station A", "BRAND", "HAUPTSTRASSE", "1", "BERLIN", 1, 2⟩

/-- A second concrete station fixture. -/
def stationB : Station :=
  ⟨"b2", "Station B", "OTHER", "NEBENWEG", "2", "HAMBURG", 3, 4⟩

/-- A concrete price fixture: open station, numeric diesel price, string
marker for e5, null e10. -/
def priceOpenDiesel : Price := ⟨"open", .num (1599/1000 : ℚ), .str "-", .null⟩

/-- A concrete price fixture with the `"no prices"` status. -/
def priceNone : Price := ⟨"no prices", .num 1, .num 2, .num 3⟩

/-- A concrete two-station registry fixture. -/
def regW : Registry := [("a1", stationA), ("b2", stationB)]

/-- A concrete well-behaved client: answers every queried identifier
with the open-diesel price fixture. -/
def fetchW : Fetch := fun b => .ok (b.map (fun i => (i, priceOpenDiesel)))

/-- A concrete failing client: every batch lookup reports a network
error. -/
def fetchBad : Fetch := fun _ => .error "Get json/prices.php: net: timeout"

/-- A concrete one-station registry for the key-provenance analysis. -/
def regCx : Registry := [("a1", stationA)]

/-- A concrete misbehaving client: answers with a price for an identifier
that was never queried and is absent from the registry. -/
def fetchCx : Fetch := fun _ => .ok [("zz", priceOpenDiesel)]

/-- A concrete metrics-state fixture. -/
def stW : MetricsState := ⟨1, 7/2, 5, 2⟩

/-- A concrete detail-lookup client for the initialization fixtures:
knows `"a1"`, answers the empty sentinel station for `"missing"` and a
network error for `"down"`. -/
def detailW : Detail := fun id =>
  if id = "a1" then .ok stationA
  else if id = "down" then .error "Get json/detail.php: net: timeout"
  else .ok ⟨"", "", "", "", "", "", 0, 0⟩

/-! ## Helper lemmas -/

theorem chunkBy10_nil : chunkBy10 [] = [] := by
  rw [chunkBy10]

theorem chunkBy10_cons (x : String) (xs : List String) :
    chunkBy10 (x :: xs) =
      (x :: xs).take batchSize :: chunkBy10 ((x :: xs).drop batchSize) := by
  rw [chunkBy10]

/-- Flattening the batches recovers the original identifier list. -/
theorem chunkBy10_flatten (ids : List String) :
    (chunkBy10 ids).flatten = ids := by
  induction ids using chunkBy10.induct with
  | case1 => simp [chunkBy10_nil]
  | case2 x xs ih => simp [chunkBy10_cons, ih]

/-- Every batch holds at most ten identifiers. -/
theorem chunkBy10_le (ids : List String) :
    ∀ c ∈ chunkBy10 ids, c.length ≤ batchSize := by
  induction ids using chunkBy10.induct with
  | case1 => simp [chunkBy10_nil]
  | case2 x xs ih =>
    rw [chunkBy10_cons]
    intro c hc
    rcases List.mem_cons.mp hc with hc | hc
    · subst hc; exact List.length_take_le _ _
    · exact ih c hc

/-- The loop dispatches exactly `⌈n / 10⌉` batches. -/
theorem chunkBy10_length (ids : List String) :
    (chunkBy10 ids).length = (ids.length + 9) / 10 := by
  induction ids using chunkBy10.induct with
  | case1 => simp [chunkBy10_nil]
  | case2 x xs ih =>
    rw [chunkBy10_cons]
    simp only [List.length_cons, ih, List.length_drop, batchSize] at ih ⊢
    rw [ih]
    omega

/-- A batch plan over a short, nonempty identifier list is a single batch. -/
theorem chunkBy10_small (ids : List String) (h : ids ≠ [])
    (hlen : ids.length ≤ batchSize) : chunkBy10 ids = [ids] := by
  cases ids with
  | nil => exact absurd rfl h
  | cons x xs =>
      rw [chunkBy10_cons, List.take_of_length_le hlen,
        List.drop_eq_nil_of_le hlen, chunkBy10_nil]

/-- A binding of the map after one store came from the old map or has the
stored key. -/
theorem mapStore_mem (m : PriceMap) (k : String) (v : Price) :
    ∀ kv ∈ mapStore m k v, kv ∈ m ∨ kv.1 = k := by
  intro kv hkv
  unfold mapStore at hkv
  split at hkv
  · obtain ⟨p, hp, hpe⟩ := List.mem_map.mp hkv
    by_cases h : p.1 = k
    · right
      rw [if_pos h] at hpe
      rw [← hpe]
    · left
      rw [if_neg h] at hpe
      rw [← hpe]
      exact hp
  · rcases List.mem_append.mp hkv with h | h
    · exact Or.inl h
    · right
      rw [List.mem_singleton.mp h]

/-- A binding of the map after `maps.Copy` came from the destination or
has a key of the source. -/
theorem mapsCopy_mem (src : PriceMap) :
    ∀ (dst : PriceMap), ∀ kv ∈ mapsCopy dst src,
      kv ∈ dst ∨ kv.1 ∈ src.map Prod.fst := by
  induction src with
  | nil =>
      intro dst kv hkv
      exact Or.inl hkv
  | cons p src ih =>
      intro dst kv hkv
      unfold mapsCopy at hkv ih
      rw [List.foldl_cons] at hkv
      rcases ih (mapStore dst p.1 p.2) kv hkv with h | h
      · rcases mapStore_mem dst p.1 p.2 kv h with h2 | h2
        · exact Or.inl h2
        · right
          rw [List.map_cons]
          exact List.mem_cons.mpr (Or.inl h2)
      · right
        rw [List.map_cons]
        exact List.mem_cons.mpr (Or.inr h)

/-- `errgroup.Wait` semantics of the embedded run: when every batch before
a failing one succeeds, the whole run reports that batch's error,
whatever comes after it. -/
theorem runBatches_first_error (fetch : Fetch) (pre post : List (List String))
    (b : List String) (e : String)
    (hpre : ∀ x ∈ pre, ∃ r, fetch x = .ok r)
    (hb : fetch b = .error e) :
    runBatches fetch (pre ++ b :: post) = .error e := by
  unfold runBatches
  suffices h : ∀ acc : PriceMap,
      List.foldlM (fun acc b => (fetch b).map (fun r => mapsCopy acc r)) acc
        (pre ++ b :: post) = .error e from h []
  induction pre with
  | nil =>
      intro acc
      simp only [List.nil_append, List.foldlM_cons, hb, Except.map]
      rfl
  | cons p pre ih =>
      intro acc
      obtain ⟨r, hr⟩ := hpre p (List.mem_cons_self p pre)
      simp only [List.cons_append, List.foldlM_cons, hr, Except.map]
      exact ih (fun x hx => hpre x (List.mem_cons_of_mem p hx)) _

/-- Key provenance of a successful run: if the remote responses only
mention queried identifiers, every key of the merged map lies in some
dispatched batch. -/
theorem runBatches_keys (fetch : Fetch) (S : List String)
    (hfetch : ∀ b r, fetch b = .ok r → ∀ kv ∈ r, kv.1 ∈ b) :
    ∀ (bs : List (List String)) (acc ps : PriceMap),
      (∀ b ∈ bs, ∀ x ∈ b, x ∈ S) →
      (∀ kv ∈ acc, kv.1 ∈ S) →
      List.foldlM (fun acc b => (fetch b).map (fun r => mapsCopy acc r)) acc
        bs = .ok ps →
      ∀ kv ∈ ps, kv.1 ∈ S := by
  intro bs
  induction bs with
  | nil =>
      intro acc ps _ hacc hrun
      simp only [List.foldlM_nil] at hrun
      cases hrun
      exact hacc
  | cons b bs ih =>
      intro acc ps hbs hacc hrun
      simp only [List.foldlM_cons] at hrun
      cases hfb : fetch b with
      | error e =>
          rw [hfb] at hrun
          simp [Except.map] at hrun
          cases hrun
      | ok r =>
          rw [hfb] at hrun
          simp only [Except.map] at hrun
          refine ih (mapsCopy acc r) ps
            (fun x hx => hbs x (List.mem_cons_of_mem b hx)) ?_ hrun
          intro kv hkv
          rcases mapsCopy_mem r acc kv hkv with h | h
          · exact hacc kv h
          · obtain ⟨p, hp, hpe⟩ := List.mem_map.mp h
            exact hbs b (List.mem_cons_self b bs)
              kv.1 (hpe ▸ hfetch b r hfb p hp)

/-! ## Claim theorems -/

/-- C1: for every registry of n station IDs, one call to `scrape`
dispatches exactly ⌈n/10⌉ batched price-lookup tasks, each batch holds at
most 10 identifiers, and the union of the batch slices equals the
registry's key set with no duplicates and no omissions. -/
theorem scrape_batch_plan (reg : Registry)
    (hnodup : (reg.map Prod.fst).Nodup) :
    (chunkBy10 (reg.map Prod.fst)).length =
      ((reg.map Prod.fst).length + 9) / 10 ∧
    (∀ c ∈ chunkBy10 (reg.map Prod.fst), c.length ≤ 10) ∧
    (chunkBy10 (reg.map Prod.fst)).flatten = reg.map Prod.fst ∧
    (chunkBy10 (reg.map Prod.fst)).flatten.Nodup := by
  refine ⟨chunkBy10_length _, ?_, chunkBy10_flatten _, ?_⟩
  · exact chunkBy10_le _
  · rw [chunkBy10_flatten]
    exact hnodup

/-- C1 witness: a concrete two-station registry yields one batch of two
identifiers covering both keys. -/
theorem scrape_batch_plan_witness :
    (chunkBy10 (regW.map Prod.fst)).length =
      ((regW.map Prod.fst).length + 9) / 10 ∧
    (∀ c ∈ chunkBy10 (regW.map Prod.fst), c.length ≤ 10) ∧
    (chunkBy10 (regW.map Prod.fst)).flatten = regW.map Prod.fst ∧
    (chunkBy10 (regW.map Prod.fst)).flatten.Nodup :=
  scrape_batch_plan regW (by simp [regW])

/-- C2: a cycle in which some batched lookup fails (every batch dispatched
before it succeeding) fails as a whole: `up` is set to 0, the
failed-scrapes counter is incremented, the first encountered error is
returned, and zero per-station observations are emitted. -/
theorem scrape_any_batch_failure (nz : Normalizers) (fetch : Fetch)
    (reg : Registry) (elapsed : ℚ) (st : MetricsState)
    (pre post : List (List String)) (b : List String) (e : String)
    (hplan : chunkBy10 (reg.map Prod.fst) = pre ++ b :: post)
    (hpre : ∀ x ∈ pre, ∃ r, fetch x = .ok r)
    (hb : fetch b = .error e) :
    scrape nz fetch reg elapsed st =
      ⟨⟨0, elapsed, st.totalScrapes + 1, st.failedScrapes + 1⟩,
        [], some e⟩ := by
  have hres : scrapeResult fetch reg = .error e := by
    rw [scrapeResult, hplan]
    exact runBatches_first_error fetch pre post b e hpre hb
  simp [scrape, hres]

/-- C2 witness: against the always-failing client, the concrete registry
cycle fails with `up` 0, one more failed scrape, no observations, and the
client's error. -/
theorem scrape_any_batch_failure_witness :
    scrape nzId fetchBad regW (7/2) stW =
      ⟨⟨0, 7/2, stW.totalScrapes + 1, stW.failedScrapes + 1⟩,
        [], some "Get json/prices.php: net: timeout"⟩ :=
  scrape_any_batch_failure nzId fetchBad regW (7/2) stW []
    [] (regW.map Prod.fst) "Get json/prices.php: net: timeout"
    (by rw [chunkBy10_small (regW.map Prod.fst) (by simp [regW])
      (by simp [regW, batchSize])]; rfl)
    (by simp) rfl

/-- C10: every invocation of `scrape`, failed or successful, increments
`totalScrapes` exactly once and sets `scrapeDuration` to the elapsed
wall-clock time of that invocation (the deferred duration update runs on
the error return path too). -/
theorem scrape_counts_duration (nz : Normalizers) (fetch : Fetch)
    (reg : Registry) (elapsed : ℚ) (st : MetricsState) :
    (scrape nz fetch reg elapsed st).state.totalScrapes =
      st.totalScrapes + 1 ∧
    (scrape nz fetch reg elapsed st).state.scrapeDuration = elapsed := by
  unfold scrape
  cases scrapeResult fetch reg <;> simp

/-- C7: two consecutive cycles with the registry and remote data fixed
emit identical observations and return identical errors; across the two
runs `up` and the duration agree, `totalScrapes` grows by exactly one per
run, and `failedScrapes` grows by one exactly when the run fails. -/
theorem scrape_idempotent (nz : Normalizers) (fetch : Fetch)
    (reg : Registry) (elapsed : ℚ) (st : MetricsState) :
    (scrape nz fetch reg elapsed
        (scrape nz fetch reg elapsed st).state).observations =
      (scrape nz fetch reg elapsed st).observations ∧
    (scrape nz fetch reg elapsed
        (scrape nz fetch reg elapsed st).state).err =
      (scrape nz fetch reg elapsed st).err ∧
    (scrape nz fetch reg elapsed
        (scrape nz fetch reg elapsed st).state).state.up =
      (scrape nz fetch reg elapsed st).state.up ∧
    (scrape nz fetch reg elapsed
        (scrape nz fetch reg elapsed st).state).state.scrapeDuration =
      (scrape nz fetch reg elapsed st).state.scrapeDuration ∧
    (scrape nz fetch reg elapsed st).state.totalScrapes =
      st.totalScrapes + 1 ∧
    (scrape nz fetch reg elapsed
        (scrape nz fetch reg elapsed st).state).state.totalScrapes =
      (scrape nz fetch reg elapsed st).state.totalScrapes + 1 ∧
    (scrape nz fetch reg elapsed st).state.failedScrapes =
      st.failedScrapes +
        (if (scrape nz fetch reg elapsed st).err.isSome then 1 else 0) ∧
    (scrape nz fetch reg elapsed
        (scrape nz fetch reg elapsed st).state).state.failedScrapes =
      (scrape nz fetch reg elapsed st).state.failedScrapes +
        (if (scrape nz fetch reg elapsed st).err.isSome then 1 else 0) := by
  unfold scrape
  cases scrapeResult fetch reg <;> simp

/-- C3: for every (id, Price) pair processed during emission, a
`"no prices"` status yields no open-status and no price observations while
the details observation is still the (single) emitted one; any other
status yields exactly one open-status observation whose value is 1 for
`"open"` and 0 for every other status string. -/
theorem emitStation_status_policy (nz : Normalizers) (station : Station)
    (id : String) (p : Price) :
    (p.status = "no prices" →
      (emitStation nz station id p).filter (fun m => m.isOpenObs) = [] ∧
      (emitStation nz station id p).filter (fun m => m.isPriceObs) = [] ∧
      (emitStation nz station id p).filter (fun m => m.isDetailsObs) =
        emitStation nz station id p ∧
      (emitStation nz station id p).length = 1) ∧
    (p.status ≠ "no prices" →
      (emitStation nz station id p).filter (fun m => m.isOpenObs) =
        [Metric.openStatus (if p.status = "open" then 1 else 0) id]) := by
  obtain ⟨s, d, v5, v10⟩ := p
  by_cases hs : s = "no prices"
  · refine ⟨fun _ => ?_, fun h => absurd hs h⟩
    simp [emitStation, hs, Metric.isOpenObs, Metric.isPriceObs,
      Metric.isDetailsObs]
  · refine ⟨fun h => absurd h hs, fun _ => ?_⟩
    cases d <;> cases v5 <;> cases v10 <;>
      simp [emitStation, hs, Metric.isOpenObs, Metric.isPriceObs,
        Metric.isDetailsObs]

/-- C3 witness: the `"no prices"` fixture emits only its details
observation; the open fixture emits exactly one open-status observation
of value 1. -/
theorem emitStation_status_policy_witness :
    ((emitStation nzId stationB "b2" priceNone).filter
        (fun m => m.isOpenObs) = [] ∧
      (emitStation nzId stationB "b2" priceNone).filter
        (fun m => m.isPriceObs) = [] ∧
      (emitStation nzId stationB "b2" priceNone).filter
        (fun m => m.isDetailsObs) = emitStation nzId stationB "b2" priceNone ∧
      (emitStation nzId stationB "b2" priceNone).length = 1) ∧
    (emitStation nzId stationA "a1" priceOpenDiesel).filter
        (fun m => m.isOpenObs) =
      [Metric.openStatus (if priceOpenDiesel.status = "open" then 1 else 0)
        "a1"] :=
  ⟨(emitStation_status_policy nzId stationB "b2" priceNone).1 rfl,
    (emitStation_status_policy nzId stationA "a1" priceOpenDiesel).2
      (by simp [priceOpenDiesel])⟩

/-- C4: for a station that reaches the product-emission step (status not
`"no prices"`), a price observation with product label diesel/e5/e10 is
emitted iff the corresponding field holds a numeric value; non-numeric
fields emit nothing for that (station, product) pair. -/
theorem emitStation_price_sparse (nz : Normalizers) (station : Station)
    (id : String) (p : Price) (h : p.status ≠ "no prices") :
    (∀ q : ℚ, Metric.price q id "diesel" ∈ emitStation nz station id p ↔
      p.diesel = .num q) ∧
    (∀ q : ℚ, Metric.price q id "e5" ∈ emitStation nz station id p ↔
      p.e5 = .num q) ∧
    (∀ q : ℚ, Metric.price q id "e10" ∈ emitStation nz station id p ↔
      p.e10 = .num q) := by
  obtain ⟨s, d, v5, v10⟩ := p
  simp only [Price.mk.injEq] at h ⊢
  cases d <;> cases v5 <;> cases v10 <;>
    refine ⟨fun q => ?_, fun q => ?_, fun q => ?_⟩ <;>
      simp [emitStation, h, eq_comm]

/-- C4 witness: the open fixture (numeric diesel, string e5, null e10)
emits a diesel observation with the numeric value and no e5/e10
observations. -/
theorem emitStation_price_sparse_witness :
    (Metric.price (1599/1000 : ℚ) "a1" "diesel" ∈
      emitStation nzId stationA "a1" priceOpenDiesel ↔
      priceOpenDiesel.diesel = .num (1599/1000 : ℚ)) ∧
    (Metric.price (1599/1000 : ℚ) "a1" "e5" ∈
      emitStation nzId stationA "a1" priceOpenDiesel ↔
      priceOpenDiesel.e5 = .num (1599/1000 : ℚ)) ∧
    (Metric.price (1599/1000 : ℚ) "a1" "e10" ∈
      emitStation nzId stationA "a1" priceOpenDiesel ↔
      priceOpenDiesel.e10 = .num (1599/1000 : ℚ)) := by
  have h := emitStation_price_sparse nzId stationA "a1" priceOpenDiesel
    (by simp [priceOpenDiesel])
  exact ⟨h.1 _, h.2.1 _, h.2.2 _⟩

/-- C5 counterexample: against a remote client that answers with an
identifier that was never queried, the merged Scrape Result holds the key
`"zz"`, which is not a registry key — the code copies batch responses
into the merged map without filtering them against the registry. -/
theorem scrape_result_keys_not_subset :
    scrapeResult fetchCx regCx = .ok [("zz", priceOpenDiesel)] ∧
    ((regCx.map Prod.fst).contains "zz") = false := by
  constructor
  · rw [scrapeResult, show regCx.map Prod.fst = ["a1"] from rfl,
      chunkBy10_small ["a1"] (by simp) (by simp [batchSize])]
    rfl
  · rfl

/-- C5 amended: when every batch response mentions only identifiers of
the queried batch, every key of the merged Scrape Result is a registry
key. -/
theorem scrape_result_keys_subset (fetch : Fetch) (reg : Registry)
    (hfetch : ∀ b r, fetch b = .ok r → ∀ kv ∈ r, kv.1 ∈ b)
    (ps : PriceMap) (hps : scrapeResult fetch reg = .ok ps) :
    ∀ kv ∈ ps, kv.1 ∈ reg.map Prod.fst := by
  rw [scrapeResult, runBatches] at hps
  refine runBatches_keys fetch (reg.map Prod.fst) hfetch
    (chunkBy10 (reg.map Prod.fst)) [] ps ?_ (by simp) hps
  intro b hb x hx
  have hmem : x ∈ (chunkBy10 (reg.map Prod.fst)).flatten :=
    List.mem_flatten.mpr ⟨b, hb, hx⟩
  rwa [chunkBy10_flatten] at hmem

/-- C5 amended witness: the well-behaved client answers each queried
identifier, and the key `"a1"` of the resulting merged map is a registry
key. -/
theorem scrape_result_keys_subset_witness :
    ("a1", priceOpenDiesel).1 ∈ regW.map Prod.fst := by
  have hfetch : ∀ b r, fetchW b = .ok r → ∀ kv ∈ r, kv.1 ∈ b := by
    intro b r h kv hkv
    rw [show r = b.map (fun i => (i, priceOpenDiesel)) from
      (Except.ok.inj h).symm] at hkv
    obtain ⟨i, hi, hie⟩ := List.mem_map.mp hkv
    rw [← hie]
    exact hi
  have hps : scrapeResult fetchW regW =
      .ok [("a1", priceOpenDiesel), ("b2", priceOpenDiesel)] := by
    rw [scrapeResult, show regW.map Prod.fst = ["a1", "b2"] from rfl,
      chunkBy10_small ["a1", "b2"] (by simp) (by simp [batchSize])]
    rfl
  exact scrape_result_keys_subset fetchW regW hfetch _ hps
    ("a1", priceOpenDiesel) (by simp)

/-- C6: `NewForStations` fails fast: with every identifier before a
failing one resolving to a nonempty station, a network error on the
failing identifier yields the remote-lookup error and an empty sentinel
station yields the station-not-found error, in both cases whatever
identifiers follow (they are never consulted), and no registry — the
constructor returns no exporter on any failure. -/
theorem newForStations_fail_fast (detail : Detail) (pre post : List String)
    (id0 : String)
    (hpre : ∀ id ∈ pre, ∃ s, detail id = .ok s ∧ s.id ≠ "") :
    (∀ e, detail id0 = .error e →
      newForStations detail (pre ++ id0 :: post) =
        .error (.remoteLookup id0 e)) ∧
    (∀ s, detail id0 = .ok s → s.id = "" →
      newForStations detail (pre ++ id0 :: post) =
        .error (.stationNotFound id0)) := by
  induction pre with
  | nil =>
      refine ⟨fun e he => ?_, fun s hs hid => ?_⟩
      · simp [newForStations, he]
      · simp [newForStations, hs, hid]
  | cons p pre ih =>
      obtain ⟨s0, hs0, hid0⟩ := hpre p (List.mem_cons_self p pre)
      have ih2 := ih (fun id hid => hpre id (List.mem_cons_of_mem p hid))
      refine ⟨fun e he => ?_, fun s hs hid => ?_⟩
      · simp [newForStations, hs0, hid0, ih2.1 e he, Except.map]
      · simp [newForStations, hs0, hid0, ih2.2 s hs hid, Except.map]

/-- C6 witness: with the concrete detail client, an unknown identifier in
second position aborts initialization with the station-not-found error,
with identifiers after it never consulted. -/
theorem newForStations_fail_fast_witness :
    newForStations detailW ["a1", "missing", "x9", "y7"] =
      .error (.stationNotFound "missing") :=
  (newForStations_fail_fast detailW ["a1"] ["x9", "y7"] "missing"
    (by
      intro id hid
      rw [List.mem_singleton.mp hid]
      exact ⟨stationA, rfl, by simp [stationA]⟩)).2
    ⟨"", "", "", "", "", "", 0, 0⟩ rfl rfl

/-- C8: a cycle error is never propagated out of `Collect`: when `scrape`
fails, `Collect` records only a log line and still streams the four
metrics-state observations — a valid snapshot with `up` 0 and the bumped
counters, with no per-station observations. -/
theorem collect_swallows_scrape_error (nz : Normalizers) (fetch : Fetch)
    (reg : Registry) (elapsed : ℚ) (st : MetricsState) (e : String)
    (h : (scrape nz fetch reg elapsed st).err = some e) :
    collect nz fetch reg elapsed st =
      ⟨⟨0, elapsed, st.totalScrapes + 1, st.failedScrapes + 1⟩,
        [Observation.upGauge 0, Observation.durationGauge elapsed,
         Observation.failedCounter (st.failedScrapes + 1),
         Observation.totalCounter (st.totalScrapes + 1)],
        some ("error: cannot scrape tankerkoenig api: " ++ e)⟩ := by
  have hres : scrapeResult fetch reg = .error e := by
    unfold scrape at h
    cases hr : scrapeResult fetch reg <;> rw [hr] at h <;> simp_all
  simp [collect, scrape, hres]

/-- C8 witness: against the always-failing client, `Collect` on the
concrete registry returns the four state observations with `up` 0 and a
log line, and no error. -/
theorem collect_swallows_scrape_error_witness :
    collect nzId fetchBad regW (7/2) stW =
      ⟨⟨0, 7/2, stW.totalScrapes + 1, stW.failedScrapes + 1⟩,
        [Observation.upGauge 0, Observation.durationGauge (7/2),
         Observation.failedCounter (stW.failedScrapes + 1),
         Observation.totalCounter (stW.totalScrapes + 1)],
        some ("error: cannot scrape tankerkoenig api: " ++
          "Get json/prices.php: net: timeout")⟩ := by
  have hres : scrapeResult fetchBad regW =
      .error "Get json/prices.php: net: timeout" := by
    rw [scrapeResult, show regW.map Prod.fst = ["a1", "b2"] from rfl,
      chunkBy10_small ["a1", "b2"] (by simp) (by simp [batchSize])]
    rfl
  exact collect_swallows_scrape_error nzId fetchBad regW (7/2) stW
    "Get json/prices.php: net: timeout" (by simp [scrape, hres])

end TankerkoenigExporter
